import Mathlib

/-!
Shallow embedding of `src/cressi_goa_parser.c` (libdivecomputer, Cressi Goa
dive-log parser) and verification of its natural-language specification.

The raw dive record is modelled as a `List Nat` of bytes.  C `unsigned int`
arithmetic is modelled on `Nat` with an explicit `% U32` wherever the C value
could wrap.  Fallible operations return `Except Err _`; a C read through a
pointer that may fall outside the buffer is modelled with `List.get?`, the
whole computation then living in `Option` (`none` marks an out-of-bounds
access, which the C code never performs on the paths proved below).
-/

namespace CressiGoa

/-- Modulus of the 32-bit C `unsigned int` type. -/
def U32 : Nat := 2 ^ 32

/-- C macro `#define SZ_HEADER 23` -/
def SZ_HEADER : Nat := 23

/-- C macro `#define DEPTH 0` : sample record type for depth samples. -/
def DEPTH : Nat := 0

/-- C macro `#define DEPTH2 1` : alternate depth sample type, treated like `DEPTH`. -/
def DEPTH2 : Nat := 1

/-- C macro `#define TIME 2` : surface-interval (time) sample record type. -/
def TIME : Nat := 2

/-- C macro `#define TEMPERATURE 3` : temperature sample record type. -/
def TEMPERATURE : Nat := 3

/-- C macro `#define SCUBA 0` -/
def SCUBA : Nat := 0

/-- C macro `#define NITROX 1` -/
def NITROX : Nat := 1

/-- C macro `#define FREEDIVE 2` -/
def FREEDIVE : Nat := 2

/-- C macro `#define GAUGE 3` -/
def GAUGE : Nat := 3

/-- C macro `#define NGASMIXES 2` -/
def NGASMIXES : Nat := 2

/-- C macro `#define UNDEFINED 0xFFFFFFFF` : sentinel for a field a layout lacks. -/
def UNDEFINED : Nat := 0xFFFFFFFF

/-- C type `cressi_goa_layout_t`: per-dive-mode byte offsets into the mode-specific
header region. -/
structure Layout where
  headersize : Nat
  datetime : Nat
  divetime : Nat
  gasmix : Nat
  atmospheric : Nat
  maxdepth : Nat
  avgdepth : Nat
  temperature : Nat
deriving Repr, DecidableEq

/-- Placeholder layout used as the (never reached) default of a guarded
table lookup. -/
def layoutDefault : Layout := ⟨0, 0, 0, 0, 0, 0, 0, 0⟩

/-- Layout `layouts[SCUBA]` -/
def layoutScuba : Layout :=
  { headersize := 92, datetime := 12, divetime := 20, gasmix := 26,
    atmospheric := 30, maxdepth := 73, avgdepth := 75, temperature := 77 }

/-- Layout `layouts[NITROX]` (identical to the scuba layout). -/
def layoutNitrox : Layout :=
  { headersize := 92, datetime := 12, divetime := 20, gasmix := 26,
    atmospheric := 30, maxdepth := 73, avgdepth := 75, temperature := 77 }

/-- Layout `layouts[FREEDIVE]` -/
def layoutFreedive : Layout :=
  { headersize := 38, datetime := 12, divetime := 20, gasmix := UNDEFINED,
    atmospheric := UNDEFINED, maxdepth := 23, avgdepth := UNDEFINED,
    temperature := 25 }

/-- Layout `layouts[GAUGE]` -/
def layoutGauge : Layout :=
  { headersize := 40, datetime := 12, divetime := 20, gasmix := UNDEFINED,
    atmospheric := 22, maxdepth := 24, avgdepth := 26, temperature := 28 }

/-- C table `static const cressi_goa_layout_t layouts[]`, indexed by dive mode. -/
def layouts : List Layout := [layoutScuba, layoutNitrox, layoutFreedive, layoutGauge]

/-- Error kinds of §7 of the spec.  In the C code the first three all map to
`DC_STATUS_DATAFORMAT` but arise at the distinct check sites named here;
`Unsupported` is `DC_STATUS_UNSUPPORTED` and `DataFormat` the defensive
`DC_STATUS_DATAFORMAT` of the dive-mode mapping. -/
inductive Err where
  | InvalidLength
  | InvalidHeader
  | InvalidMode
  | Unsupported
  | DataFormat
deriving Repr, DecidableEq

/-- The decoding context established by `cressi_goa_init`: the fields of
`cressi_goa_parser_t` the init function fills in (the unused `version`
field is never written by this source file and is omitted). -/
structure Ctx where
  layout : Layout
  headersize : Nat
  divemode : Nat
deriving Repr, DecidableEq

/-- Function `array_uint16_le` of libdivecomputer: little-endian 16-bit read at byte
offset `i`; `none` when the two bytes are not inside the buffer. -/
def array_uint16_le (data : List Nat) (i : Nat) : Option Nat :=
  match data.get? i, data.get? (i + 1) with
  | some b0, some b1 => some (b0 + 256 * b1)
  | _, _ => none

/-- The little-endian 16-bit value at absolute byte offset `i` of a
buffer (total, with 0 for out-of-range bytes); used to state what the
field decoder reads at `header size + field offset`. -/
def u16le_at (data : List Nat) (i : Nat) : Nat :=
  data.getD i 0 + 256 * data.getD (i + 1) 0

/-- Function `cressi_goa_init`: validates the raw buffer, resolves the dive mode,
selects the layout and computes the header size (lines 131-178 of the C
source).  The checks are performed in exactly the order of the code. -/
def cressi_goa_init (data : List Nat) : Except Err Ctx :=
  let size := data.length
  if size < 2 then .error .InvalidLength
  else
    let id_len := data.getD 0 0
    let logbook_len := data.getD 1 0
    if id_len < 9 ∨ logbook_len < SZ_HEADER then .error .InvalidHeader
    else if size < 2 + id_len + logbook_len then .error .InvalidLength
    else
      -- logbook = data + 2 + id_len; divemode = logbook[2]
      let divemode := data.getD (2 + id_len + 2) 0
      if divemode ≥ layouts.length then .error .InvalidMode
      else
        let layout := layouts.getD divemode layoutDefault
        let headersize := 2 + id_len + logbook_len
        if size < headersize + layout.headersize then .error .InvalidLength
        else .ok { layout := layout, headersize := headersize, divemode := divemode }

/-- Header-decoding algorithm transcribed from the words of §4.2 of the
spec (steps 1-8), for comparison with `cressi_goa_init`. -/
def specHeaderDecode (B : List Nat) : Except Err Ctx :=
  if 2 ≤ B.length then
    let id_len := B.getD 0 0
    let logbook_len := B.getD 1 0
    if 9 ≤ id_len ∧ 23 ≤ logbook_len then
      if 2 + id_len + logbook_len ≤ B.length then
        let mode := B.getD (2 + id_len + 2) 0
        if mode < 4 then
          let headerSize := 2 + id_len + logbook_len
          if headerSize + (layouts.getD mode layoutDefault).headersize ≤ B.length then
            .ok { layout := layouts.getD mode layoutDefault,
                  headersize := headerSize, divemode := mode }
          else .error .InvalidLength
        else .error .InvalidMode
      else .error .InvalidLength
    else .error .InvalidHeader
  else .error .InvalidLength

/-- C enumeration `dc_field_type_t` restricted to the values this parser handles;
`UNKNOWN` stands for every other member of the enumeration (the C
`default:` case). -/
inductive FieldType where
  | DIVETIME
  | MAXDEPTH
  | AVGDEPTH
  | TEMPERATURE_MINIMUM
  | ATMOSPHERIC
  | GASMIX_COUNT
  | GASMIX
  | DIVEMODE
  | UNKNOWN
deriving Repr, DecidableEq

/-- C enumeration `dc_divemode_t` values produced by this parser. -/
inductive DcDivemode where
  | OC
  | GAUGEMODE
  | FREEDIVEMODE
deriving Repr, DecidableEq

/-- C enumeration `dc_usage_t`; this parser only ever produces `DC_USAGE_NONE`. -/
inductive DcUsage where
  | NONE
deriving Repr, DecidableEq

/-- The typed value written through the `void *value` out-pointer of
`cressi_goa_parser_get_field`.  C `double` results of the fixed decimal
scalings are modelled exactly, as rationals. -/
inductive FieldValue where
  | uint (n : Nat)
  | real (q : ℚ)
  | mix (oxygen helium nitrogen : ℚ) (usage : DcUsage)
  | mode (m : DcDivemode)
deriving Repr, DecidableEq

/-- The `ngasmixes` computation at the top of `cressi_goa_parser_get_field`
(lines 236-243): scan the `NGASMIXES = 2` gas slots, counting while the
oxygen byte (second byte of each 2-byte slot) is nonzero.  The C index
expression `layout->gasmix + 2*i + 1` is `unsigned int` arithmetic, hence
the `% U32`. -/
def ngasmixesOf (data : List Nat) (g : Nat) : Option Nat :=
  if g = UNDEFINED then some 0
  else
    match data.get? ((g + 2 * 0 + 1) % U32) with
    | none => none
    | some b0 =>
      if b0 = 0 then some 0
      else
        match data.get? ((g + 2 * 1 + 1) % U32) with
        | none => none
        | some b1 => if b1 = 0 then some 1 else some 2

/-- Function `cressi_goa_parser_get_field` (lines 229-305).  `hasValue` models
whether the `void *value` out-pointer is non-null; the inner
`Option FieldValue` of the result is the value written through it (`none`
when nothing is written).  The outer `Option` is `none` exactly when the C
code would read outside the buffer. -/
def cressi_goa_parser_get_field (ctx : Ctx) (data0 : List Nat) (ty : FieldType)
    (flags : Nat) (hasValue : Bool) : Option (Except Err (Option FieldValue)) :=
  let layout := ctx.layout
  let data := data0.drop ctx.headersize
  match ngasmixesOf data layout.gasmix with
  | none => none
  | some ngasmixes =>
    if hasValue then
      match ty with
      | .DIVETIME =>
        if layout.divetime = UNDEFINED then some (.error .Unsupported)
        else
          match array_uint16_le data layout.divetime with
          | none => none
          | some v => some (.ok (some (.uint v)))
      | .MAXDEPTH =>
        if layout.maxdepth = UNDEFINED then some (.error .Unsupported)
        else
          match array_uint16_le data layout.maxdepth with
          | none => none
          | some v => some (.ok (some (.real ((v : ℚ) / 10))))
      | .AVGDEPTH =>
        if layout.avgdepth = UNDEFINED then some (.error .Unsupported)
        else
          match array_uint16_le data layout.avgdepth with
          | none => none
          | some v => some (.ok (some (.real ((v : ℚ) / 10))))
      | .TEMPERATURE_MINIMUM =>
        if layout.temperature = UNDEFINED then some (.error .Unsupported)
        else
          match array_uint16_le data layout.temperature with
          | none => none
          | some v => some (.ok (some (.real ((v : ℚ) / 10))))
      | .ATMOSPHERIC =>
        if layout.atmospheric = UNDEFINED then some (.error .Unsupported)
        else
          match array_uint16_le data layout.atmospheric with
          | none => none
          | some v => some (.ok (some (.real ((v : ℚ) / 1000))))
      | .GASMIX_COUNT => some (.ok (some (.uint ngasmixes)))
      | .GASMIX =>
        -- no sentinel or index check in the C code; unsigned wrap of the index
        match data.get? ((layout.gasmix + 2 * flags + 1) % U32) with
        | none => none
        | some b =>
          some (.ok (some (.mix ((b : ℚ) / 100) 0 (1 - (b : ℚ) / 100 - 0) .NONE)))
      | .DIVEMODE =>
        if ctx.divemode = SCUBA ∨ ctx.divemode = NITROX then
          some (.ok (some (.mode .OC)))
        else if ctx.divemode = GAUGE then some (.ok (some (.mode .GAUGEMODE)))
        else if ctx.divemode = FREEDIVE then some (.ok (some (.mode .FREEDIVEMODE)))
        else some (.error .DataFormat)
      | .UNKNOWN => some (.error .Unsupported)
    else some (.ok none)

/-- C union `dc_sample_value_t` payloads delivered to the sample callback, in
callback order.  Depth and temperature are the exact rational values of the
C `double` divisions. -/
inductive SampleEvent where
  | time (ms : Nat)
  | depth (meters : ℚ)
  | temperature (celsius : ℚ)
  | gasmixChange (index : Nat)
deriving Repr, DecidableEq

/-- The local state of the sample walk in
`cressi_goa_parser_samples_foreach` (lines 317-322). -/
structure SState where
  time : Nat
  depth : Nat
  gasmix : Nat
  gasmix_previous : Nat
  temperature : Nat
  have_temperature : Bool
  complete : Bool
deriving Repr, DecidableEq

/-- Initial sample-walk state: `time = 0, depth = 0, gasmix = 0,
gasmix_previous = 0xFFFFFFFF, temperature = 0, have_temperature = 0,
complete = 0`. -/
def initState : SState :=
  { time := 0, depth := 0, gasmix := 0, gasmix_previous := 0xFFFFFFFF,
    temperature := 0, have_temperature := false, complete := false }

/-- C line `interval = parser->divemode == FREEDIVE ? 2 : 5` (line 315). -/
def intervalOf (divemode : Nat) : Nat := if divemode = FREEDIVE then 2 else 5

/-- The `if (complete)` block of the sample loop (lines 359-385): emit the
record events in callback order and update the walk state. -/
def completeRecord (divemode : Nat) (s : SState) : SState × List SampleEvent :=
  -- Time (seconds).
  let evs := [SampleEvent.time ((s.time * 1000) % U32)]
  -- Temperature (1/10 °C).
  let (s, evs) :=
    if s.have_temperature then
      ({ s with have_temperature := false },
       evs ++ [SampleEvent.temperature ((s.temperature : ℚ) / 10)])
    else (s, evs)
  -- Depth (1/10 m).
  let evs := evs ++ [SampleEvent.depth ((s.depth : ℚ) / 10)]
  -- Gas change.
  let (s, evs) :=
    if divemode = SCUBA ∨ divemode = NITROX then
      if s.gasmix ≠ s.gasmix_previous then
        ({ s with gasmix_previous := s.gasmix },
         evs ++ [SampleEvent.gasmixChange s.gasmix])
      else (s, evs)
    else (s, evs)
  ({ s with complete := false }, evs)

/-- One iteration of the sample loop (lines 326-385) on the 16-bit word
`raw`: decode type and payload, run the per-type transition, then the
completion block when the record completed. -/
def processWord (divemode : Nat) (raw : Nat) (s : SState) : SState × List SampleEvent :=
  let interval := intervalOf divemode
  let type := raw &&& 0x0003
  let value := (raw &&& 0xFFFC) >>> 2
  let (s, evs) :=
    if type = DEPTH ∨ type = DEPTH2 then
      ({ s with depth := value &&& 0x07FF,
                gasmix := (value &&& 0x0800) >>> 11,
                time := (s.time + interval) % U32,
                complete := true }, [])
    else if type = TEMPERATURE then
      ({ s with temperature := value, have_temperature := true }, [])
    else if type = TIME then
      if value > interval then
        -- surftime -= interval; time += interval; emit Time and Depth 0
        let surftime := value - interval
        let t := (s.time + interval) % U32
        ({ s with time := (t + surftime) % U32, depth := 0, complete := true },
         [SampleEvent.time ((t * 1000) % U32), SampleEvent.depth 0])
      else
        ({ s with time := (s.time + value) % U32, depth := 0, complete := true }, [])
    else (s, [])
  if s.complete then
    let step := completeRecord divemode s
    (step.1, evs ++ step.2)
  else (s, evs)

/-- The sample loop of `cressi_goa_parser_samples_foreach`: consume
little-endian 16-bit words two bytes at a time, stopping as soon as fewer
than two bytes remain (`while (offset + 2 <= size)`). -/
def sampleLoop (divemode : Nat) (bytes : List Nat) (s : SState) : List SampleEvent :=
  match bytes with
  | b0 :: b1 :: rest =>
    let step := processWord divemode (b0 + 256 * b1) s
    step.2 ++ sampleLoop divemode rest step.1
  | _ => []

/-- Function `cressi_goa_parser_samples_foreach` (lines 307-391): walk the sample
region, which starts `layout->headersize` bytes into the mode-specific data
(`data + parser->headersize`), and return the emitted events; the C
function always returns `DC_STATUS_SUCCESS`.  (For a context produced by
`cressi_goa_init` on the same buffer, `size - parser->headersize` never
underflows; contexts are only ever constructed that way.) -/
def cressi_goa_parser_samples_foreach (ctx : Ctx) (data0 : List Nat) :
    Except Err (List SampleEvent) :=
  let data := data0.drop ctx.headersize
  .ok (sampleLoop ctx.divemode (data.drop ctx.layout.headersize) initState)

/-- State-passing form of `cressi_goa_init` acting on a parser whose
context fields are `p`: the C function writes `parser->layout`,
`parser->headersize` and `parser->divemode` only after every check has
passed, and leaves the parser untouched on any failure. -/
def cressi_goa_init_st (p : Ctx) (data : List Nat) : Except Err Unit × Ctx :=
  match cressi_goa_init data with
  | .ok c => (.ok (), c)
  | .error e => (.error e, p)

/-- State-passing form of `cressi_goa_parser_get_field`: the C function
contains no assignment to any `parser->` field, so the parser state is
returned unchanged. -/
def cressi_goa_parser_get_field_st (p : Ctx) (data0 : List Nat) (ty : FieldType)
    (flags : Nat) (hasValue : Bool) :
    (Option (Except Err (Option FieldValue))) × Ctx :=
  (cressi_goa_parser_get_field p data0 ty flags hasValue, p)

/-- State-passing form of `cressi_goa_parser_samples_foreach`: the walk
keeps all its state in locals and contains no assignment to any `parser->`
field, so the parser state is returned unchanged. -/
def cressi_goa_parser_samples_foreach_st (p : Ctx) (data0 : List Nat) :
    Except Err (List SampleEvent) × Ctx :=
  (cressi_goa_parser_samples_foreach p data0, p)

/-- Decidable equality on `Except`, so that concrete runs of the decoder
can be checked by `decide`. -/
instance exceptDecEq {ε α : Type} [DecidableEq ε] [DecidableEq α] :
    DecidableEq (Except ε α) := fun x y =>
  match x, y with
  | .ok a, .ok b =>
    if h : a = b then .isTrue (by rw [h]) else .isFalse (by simp [h])
  | .error a, .error b =>
    if h : a = b then .isTrue (by rw [h]) else .isFalse (by simp [h])
  | .ok _, .error _ => .isFalse (by simp)
  | .error _, .ok _ => .isFalse (by simp)

/-! ## Concrete test buffers -/

/-- A minimal well-formed freedive record: id block of 9 bytes, logbook of
23 bytes with mode byte `FREEDIVE`, and an all-zero 38-byte mode-specific
region. -/
def c2buf : List Nat :=
  [9, 23] ++ List.replicate 9 0 ++ [0, 0, 2] ++ List.replicate 20 0 ++
    List.replicate 38 0

/-- The context `cressi_goa_init` produces for `c2buf`. -/
def c2ctx : Ctx := { layout := layoutFreedive, headersize := 34, divemode := FREEDIVE }

/-- A minimal well-formed scuba record whose sample region is a single
Time word with payload 15 (raw word `15 <<< 2 ||| TIME = 62`), reached with
time accumulator 0. -/
def c3buf : List Nat :=
  [9, 23] ++ List.replicate 9 0 ++ [0, 0, 0] ++ List.replicate 20 0 ++
    List.replicate 92 0 ++ [62, 0]

/-- The context `cressi_goa_init` produces for `c3buf`. -/
def c3ctx : Ctx := { layout := layoutScuba, headersize := 34, divemode := SCUBA }

/-- A well-formed scuba record with nonzero header fields: dive time 600 s,
gas mixes 21% and 32% oxygen, atmospheric 1013 mbar, max depth 30.5 m,
average depth 15.0 m, minimum temperature 21.0 °C, and one Depth sample
word of depth 100 (10.0 m). -/
def wbuf : List Nat :=
  [9, 23] ++ List.replicate 9 0 ++ [0, 0, 0] ++ List.replicate 20 0 ++
    (List.replicate 20 0 ++ [88, 2] ++ List.replicate 4 0 ++ [0, 21, 0, 32] ++
      [245, 3] ++ List.replicate 41 0 ++ [49, 1] ++ [150, 0] ++ [210, 0] ++
      List.replicate 13 0) ++ [144, 1]

/-- The context `cressi_goa_init` produces for `wbuf`. -/
def wctx : Ctx := { layout := layoutScuba, headersize := 34, divemode := SCUBA }

/-- A mid-walk sample state with a pending temperature and a completed
record, used to exercise the record-emission order on concrete data. -/
def c4s : SState :=
  { time := 5, depth := 100, gasmix := 1, gasmix_previous := 0xFFFFFFFF,
    temperature := 210, have_temperature := true, complete := true }

/-! ## Helper lemmas -/

theorem get_drop_eq (l : List Nat) (n i : Nat) : (l.drop n).get? i = l.get? (n + i) := by
  induction n generalizing l with
  | zero => simp
  | succ n ih =>
    cases l with
    | nil => simp
    | cons a as =>
      rw [List.drop_succ_cons, ih as, show n + 1 + i = (n + i) + 1 by omega]
      rfl

theorem get?_in_bounds (l : List Nat) (i : Nat) (h : i < l.length) :
    l.get? i = some (l.getD i 0) := by
  rw [List.get?_eq_getElem?, List.getD_eq_getElem?_getD, List.getElem?_eq_getElem h]
  rfl

theorem array_uint16_le_getD (data : List Nat) (hs k : Nat)
    (h : hs + k + 2 ≤ data.length) :
    array_uint16_le (data.drop hs) k =
      some (data.getD (hs + k) 0 + 256 * data.getD (hs + k + 1) 0) := by
  have h1 : (data.drop hs).get? k = some (data.getD (hs + k) 0) := by
    rw [get_drop_eq]; exact get?_in_bounds data (hs + k) (by omega)
  have h2 : (data.drop hs).get? (k + 1) = some (data.getD (hs + k + 1) 0) := by
    rw [get_drop_eq, show hs + (k + 1) = hs + k + 1 by omega]
    exact get?_in_bounds data (hs + k + 1) (by omega)
  rw [array_uint16_le, h1, h2]

theorem init_ok_elim {data : List Nat} {ctx : Ctx}
    (h : cressi_goa_init data = .ok ctx) :
    9 ≤ data.getD 0 0 ∧ 23 ≤ data.getD 1 0 ∧
    ctx.divemode = data.getD (2 + data.getD 0 0 + 2) 0 ∧
    ctx.divemode < 4 ∧
    ctx.layout = layouts.getD ctx.divemode layoutDefault ∧
    ctx.headersize = 2 + data.getD 0 0 + data.getD 1 0 ∧
    ctx.headersize + ctx.layout.headersize ≤ data.length := by
  simp only [cressi_goa_init, SZ_HEADER] at h
  split_ifs at h with h1 h2 h3 h4 h5
  all_goals first
    | exact Except.noConfusion h
    | (rw [Except.ok.injEq] at h
       subst h
       simp only [layouts, List.length_cons, List.length_nil] at h4
       obtain ⟨h2a, h2b⟩ := not_or.mp h2
       exact ⟨not_lt.mp h2a, not_lt.mp h2b, rfl, not_le.mp h4, rfl, rfl, not_lt.mp h5⟩)

theorem layout_cases {data : List Nat} {ctx : Ctx}
    (h : cressi_goa_init data = .ok ctx) :
    (ctx.divemode = SCUBA ∧ ctx.layout = layoutScuba) ∨
    (ctx.divemode = NITROX ∧ ctx.layout = layoutNitrox) ∨
    (ctx.divemode = FREEDIVE ∧ ctx.layout = layoutFreedive) ∨
    (ctx.divemode = GAUGE ∧ ctx.layout = layoutGauge) := by
  obtain ⟨-, -, -, h4, h5, -, -⟩ := init_ok_elim h
  have hd : ctx.divemode = 0 ∨ ctx.divemode = 1 ∨ ctx.divemode = 2 ∨ ctx.divemode = 3 := by
    omega
  rcases hd with h0 | h0 | h0 | h0
  · exact Or.inl ⟨h0, by rw [h5, h0]; rfl⟩
  · exact Or.inr (Or.inl ⟨h0, by rw [h5, h0]; rfl⟩)
  · exact Or.inr (Or.inr (Or.inl ⟨h0, by rw [h5, h0]; rfl⟩))
  · exact Or.inr (Or.inr (Or.inr ⟨h0, by rw [h5, h0]; rfl⟩))

theorem ngasmixesOf_defined (data : List Nat) (hs g : Nat) (hg : g ≠ UNDEFINED)
    (hb : hs + g + 4 ≤ data.length) (hgs : g + 4 < U32) :
    ngasmixesOf (data.drop hs) g =
      some (if data.getD (hs + g + 1) 0 = 0 then 0
            else if data.getD (hs + g + 3) 0 = 0 then 1 else 2) := by
  have e1 : (g + 2 * 0 + 1) % U32 = g + 1 := Nat.mod_eq_of_lt (by omega)
  have e2 : (g + 2 * 1 + 1) % U32 = g + 3 := Nat.mod_eq_of_lt (by omega)
  have k1 := get?_in_bounds data (hs + g + 1) (by omega)
  have k3 := get?_in_bounds data (hs + g + 3) (by omega)
  simp only [ngasmixesOf, if_neg hg, e1, e2, get_drop_eq,
    show hs + (g + 1) = hs + g + 1 by omega,
    show hs + (g + 3) = hs + g + 3 by omega, k1, k3]
  split_ifs <;> rfl

theorem ngasmixesOf_init {data : List Nat} {ctx : Ctx}
    (h : cressi_goa_init data = .ok ctx) :
    ngasmixesOf (data.drop ctx.headersize) ctx.layout.gasmix =
      some (if ctx.layout.gasmix = UNDEFINED then 0
            else if data.getD (ctx.headersize + ctx.layout.gasmix + 1) 0 = 0 then 0
            else if data.getD (ctx.headersize + ctx.layout.gasmix + 3) 0 = 0 then 1
            else 2) := by
  obtain ⟨-, -, -, -, -, -, hlen⟩ := init_ok_elim h
  rcases layout_cases h with ⟨hd, hl⟩ | ⟨hd, hl⟩ | ⟨hd, hl⟩ | ⟨hd, hl⟩ <;> rw [hl] at hlen ⊢
  · simp only [layoutScuba] at hlen ⊢
    rw [ngasmixesOf_defined data ctx.headersize 26 (by decide) (by omega) (by decide)]
    simp [UNDEFINED]
  · simp only [layoutNitrox] at hlen ⊢
    rw [ngasmixesOf_defined data ctx.headersize 26 (by decide) (by omega) (by decide)]
    simp [UNDEFINED]
  · simp [ngasmixesOf, layoutFreedive, UNDEFINED]
  · simp [ngasmixesOf, layoutGauge, UNDEFINED]

/-! ## Claim theorems -/

/-- C1: the header decoder behaves exactly as the §4.2 algorithm — the
length, id/logbook, mode and layout-size checks are applied in that order,
with `InvalidLength`/`InvalidHeader`/`InvalidMode` at the stated sites, and
on success the returned context has `layout = layouts[mode]`,
`header size = 2 + id_len + logbook_len` and `dive mode = mode`; no partial
context is returned on any failure. -/
theorem C1_header_decoder_refines_spec (B : List Nat) :
    cressi_goa_init B = specHeaderDecode B := by
  simp only [cressi_goa_init, specHeaderDecode, SZ_HEADER, layouts,
    List.length_cons, List.length_nil]
  split_ifs <;> first | rfl | omega

/-- C2 counterexample: in Freedive mode (gasmix offset undefined) the
GasMixCount query does not fail with `Unsupported` — it succeeds and
returns 0 — and the GasMix query does not fail with `Unsupported` either:
the unchecked index wraps around and the query succeeds on garbage. -/
theorem C2_counterexample :
    cressi_goa_init c2buf = .ok c2ctx ∧
    c2ctx.layout.gasmix = UNDEFINED ∧
    cressi_goa_parser_get_field c2ctx c2buf .GASMIX_COUNT 0 true =
      some (.ok (some (.uint 0))) ∧
    cressi_goa_parser_get_field c2ctx c2buf .GASMIX_COUNT 0 true ≠
      some (.error .Unsupported) ∧
    (cressi_goa_parser_get_field c2ctx c2buf .GASMIX 0 true).map Except.isOk =
      some true ∧
    (some (Except.error Err.Unsupported : Except Err (Option FieldValue))).map
      Except.isOk = some false := by
  refine ⟨by decide, by decide, by decide, by decide, by rfl, by rfl⟩

set_option maxRecDepth 8192

/-- C2 (amended): for a successfully constructed context, a query for
DiveTime, MaxDepth, AvgDepth, MinTemperature or AtmosphericPressure whose
layout offset is the undefined sentinel fails with `Unsupported`,
regardless of buffer contents; but GasMixCount with an undefined gasmix
offset succeeds and returns 0, and GasMix performs no sentinel check at
all: with an undefined gasmix offset the index wraps around modulo 2^32
and the query succeeds, reading byte `2*index` of the mode-specific
region. -/
theorem C2_amended_undefined_offsets (data : List Nat) (ctx : Ctx) (flags : Nat)
    (h : cressi_goa_init data = .ok ctx) :
    (ctx.layout.divetime = UNDEFINED →
      cressi_goa_parser_get_field ctx data .DIVETIME flags true =
        some (.error .Unsupported)) ∧
    (ctx.layout.maxdepth = UNDEFINED →
      cressi_goa_parser_get_field ctx data .MAXDEPTH flags true =
        some (.error .Unsupported)) ∧
    (ctx.layout.avgdepth = UNDEFINED →
      cressi_goa_parser_get_field ctx data .AVGDEPTH flags true =
        some (.error .Unsupported)) ∧
    (ctx.layout.temperature = UNDEFINED →
      cressi_goa_parser_get_field ctx data .TEMPERATURE_MINIMUM flags true =
        some (.error .Unsupported)) ∧
    (ctx.layout.atmospheric = UNDEFINED →
      cressi_goa_parser_get_field ctx data .ATMOSPHERIC flags true =
        some (.error .Unsupported)) ∧
    (ctx.layout.gasmix = UNDEFINED →
      cressi_goa_parser_get_field ctx data .GASMIX_COUNT flags true =
        some (.ok (some (.uint 0)))) ∧
    (ctx.layout.gasmix = UNDEFINED → flags < NGASMIXES →
      cressi_goa_parser_get_field ctx data .GASMIX flags true =
        some (.ok (some (.mix ((data.getD (ctx.headersize + 2 * flags) 0 : ℚ) / 100) 0
          (1 - (data.getD (ctx.headersize + 2 * flags) 0 : ℚ) / 100 - 0) .NONE)))) := by
  have hng := ngasmixesOf_init h
  refine ⟨?_, ?_, ?_, ?_, ?_, ?_, ?_⟩
  · intro hu; simp [cressi_goa_parser_get_field, hng, hu]
  · intro hu; simp [cressi_goa_parser_get_field, hng, hu]
  · intro hu; simp [cressi_goa_parser_get_field, hng, hu]
  · intro hu; simp [cressi_goa_parser_get_field, hng, hu]
  · intro hu; simp [cressi_goa_parser_get_field, hng, hu]
  · intro hu
    have hn0 : ngasmixesOf (data.drop ctx.headersize) ctx.layout.gasmix = some 0 := by
      rw [hng, if_pos hu]
    simp only [cressi_goa_parser_get_field, hn0, if_true]
  · intro hu hf
    obtain ⟨-, -, -, -, -, -, hlen⟩ := init_ok_elim h
    have hhs : 38 ≤ ctx.layout.headersize := by
      rcases layout_cases h with ⟨-, hl⟩ | ⟨-, hl⟩ | ⟨-, hl⟩ | ⟨-, hl⟩ <;>
        rw [hl] at hu ⊢ <;> first | exact absurd hu (by decide) | decide
    have hidx : (ctx.layout.gasmix + 2 * flags + 1) % U32 = 2 * flags := by
      rw [hu]
      simp only [NGASMIXES] at hf
      have hfc : flags = 0 ∨ flags = 1 := by omega
      rcases hfc with h0 | h0 <;> rw [h0] <;> decide
    have hb := get?_in_bounds data (ctx.headersize + 2 * flags)
      (by simp only [NGASMIXES] at hf; omega)
    simp only [cressi_goa_parser_get_field, hng, if_true, get_drop_eq, hidx, hb]

/-- Witness for `C2_amended_undefined_offsets` at the concrete freedive
record `c2buf`. -/
theorem C2_amended_witness :
    cressi_goa_parser_get_field c2ctx c2buf .AVGDEPTH 0 true =
      some (.error .Unsupported) ∧
    cressi_goa_parser_get_field c2ctx c2buf .GASMIX_COUNT 0 true =
      some (.ok (some (.uint 0))) := by
  have H := C2_amended_undefined_offsets c2buf c2ctx 0 (by decide)
  exact ⟨H.2.2.1 (by decide), H.2.2.2.2.2.1 (by decide)⟩

theorem samples_foreach_eq_loop (ctx : Ctx) (data0 : List Nat) :
    cressi_goa_parser_samples_foreach ctx data0 =
      .ok (sampleLoop ctx.divemode
        (data0.drop (ctx.headersize + ctx.layout.headersize)) initState) := by
  simp only [cressi_goa_parser_samples_foreach, List.drop_drop]

/-- C3 counterexample: on a scuba record whose sample section is a single
Time word of payload 15 (> interval 5), reached with time accumulator
t = 0, the synthetic surfacing record Time event carries 5000 ms — the
accumulator after the interval bump — and not the pre-adjustment value
t × 1000 = 0 the claim states. -/
theorem C3_counterexample :
    cressi_goa_init c3buf = .ok c3ctx ∧
    cressi_goa_parser_samples_foreach c3ctx c3buf =
      .ok [SampleEvent.time 5000, SampleEvent.depth 0, SampleEvent.time 15000,
        SampleEvent.depth 0, SampleEvent.gasmixChange 0] ∧
    SampleEvent.time 5000 ≠ SampleEvent.time (0 * 1000) := by
  refine ⟨by decide, ?_, by decide⟩
  rw [samples_foreach_eq_loop]
  have hd : c3buf.drop (c3ctx.headersize + c3ctx.layout.headersize) = [62, 0] := by
    decide
  rw [hd]
  have e1 : 62 &&& 3 = 2 := by decide
  have e2 : (62 &&& 65532) >>> 2 = 15 := by decide
  norm_num [sampleLoop, processWord, completeRecord, initState, intervalOf, U32,
    DEPTH, DEPTH2, TIME, TEMPERATURE, SCUBA, NITROX, FREEDIVE, c3ctx, e1, e2]

/-- C3 (amended): for a Time word with payload v > interval, reached with
accumulator t, the decoder first adds the interval to the accumulator and
subtracts it from the payload, and only then emits the synthetic surfacing
record, whose Time event therefore carries ((t + interval) mod 2^32) × 1000
(mod 2^32) milliseconds — the post-adjustment accumulator — followed by a
Depth event of 0 meters; the adjusted payload is then added to the
accumulator, depth is set to 0 and the record is marked complete.  For
v ≤ interval no synthetic record is emitted and the unadjusted payload is
added to the accumulator. -/
theorem C3_amended_surface_interval (divemode raw : Nat) (s : SState)
    (hty : raw &&& 0x0003 = TIME) :
    ((raw &&& 0xFFFC) >>> 2 > intervalOf divemode →
      processWord divemode raw s =
        ((completeRecord divemode
            { s with time := ((s.time + intervalOf divemode) % U32 + ((raw &&& 0xFFFC) >>> 2 - intervalOf divemode)) % U32, depth := 0, complete := true }).1,
         SampleEvent.time ((s.time + intervalOf divemode) % U32 * 1000 % U32) ::
           SampleEvent.depth 0 ::
           (completeRecord divemode
            { s with time := ((s.time + intervalOf divemode) % U32 + ((raw &&& 0xFFFC) >>> 2 - intervalOf divemode)) % U32, depth := 0, complete := true }).2)) ∧
    ((raw &&& 0xFFFC) >>> 2 ≤ intervalOf divemode →
      processWord divemode raw s =
        completeRecord divemode
          { s with time := (s.time + (raw &&& 0xFFFC) >>> 2) % U32, depth := 0, complete := true }) := by
  constructor
  · intro hgt
    simp [processWord, hty, hgt, DEPTH, DEPTH2, TIME, TEMPERATURE]
  · intro hle
    have hnot : ¬ ((raw &&& 0xFFFC) >>> 2 > intervalOf divemode) := by omega
    simp [processWord, hty, hnot, DEPTH, DEPTH2, TIME, TEMPERATURE]

/-- Witness for `C3_amended_surface_interval` on the Time word 62
(payload 15) in scuba mode from the all-zero initial state. -/
theorem C3_amended_witness :
    processWord 0 62 initState =
      ((completeRecord 0 { initState with time := 15, depth := 0, complete := true }).1,
       SampleEvent.time 5000 :: SampleEvent.depth 0 ::
         (completeRecord 0 { initState with time := 15, depth := 0, complete := true }).2) := by
  have H := (C3_amended_surface_interval 0 62 initState (by decide)).1 (by decide)
  rw [H]
  have e2 : (62 &&& 65532) >>> 2 = 15 := by decide
  norm_num [intervalOf, initState, U32, FREEDIVE, e2]

theorem processWord_no_gasmix (divemode raw i : Nat) (s : SState)
    (hm : ¬ (divemode = SCUBA ∨ divemode = NITROX)) :
    SampleEvent.gasmixChange i ∉ (processWord divemode raw s).2 := by
  simp only [processWord, completeRecord]
  split_ifs <;> simp_all

theorem sampleLoop_no_gasmix (divemode : Nat)
    (hm : ¬ (divemode = SCUBA ∨ divemode = NITROX)) :
    ∀ (bytes : List Nat) (s : SState) (i : Nat),
      SampleEvent.gasmixChange i ∉ sampleLoop divemode bytes s := by
  have main : ∀ (n : Nat) (bytes : List Nat), bytes.length ≤ n → ∀ (s : SState) (i : Nat),
      SampleEvent.gasmixChange i ∉ sampleLoop divemode bytes s := by
    intro n
    induction n with
    | zero =>
      intro bytes hb s i
      match bytes with
      | [] => simp [sampleLoop]
      | b :: rest => simp at hb
    | succ n ih =>
      intro bytes hb s i
      match bytes with
      | [] => simp [sampleLoop]
      | [b] => simp [sampleLoop]
      | b0 :: b1 :: rest =>
        simp only [sampleLoop, List.mem_append, not_or]
        refine ⟨processWord_no_gasmix divemode (b0 + 256 * b1) i s hm, ?_⟩
        exact ih rest (by simp at hb; omega) _ i
  exact fun bytes s i => main bytes.length bytes le_rfl s i

/-- C4: on record completion (triggered only by Depth/DepthAlt or Time
words, never by a Temperature word alone) the decoder emits, in order, a
Time event (accumulator × 1000 ms mod 2^32), a Temperature event only if a
pending temperature is unconsumed (value/10 °C, then the flag is cleared),
a Depth event (depth/10 m), and a gas-mix-change event exactly when the
dive mode is Scuba or Nitrox and the current gas-mix index differs from the
previously emitted one (initially the sentinel 0xFFFFFFFF, so the first
completed record in those modes always differs), after which the previous
index is updated; Freedive and Gauge walks never emit a gas-mix-change
event. -/
theorem C4_complete_record_order (divemode raw : Nat) (s : SState) :
    (s.complete = true →
      completeRecord divemode s =
        ({ s with have_temperature := false, complete := false, gasmix_previous := if (divemode = SCUBA ∨ divemode = NITROX) ∧ s.gasmix ≠ s.gasmix_previous then s.gasmix else s.gasmix_previous },
         [SampleEvent.time (s.time * 1000 % U32)] ++
           (if s.have_temperature then [SampleEvent.temperature ((s.temperature : ℚ) / 10)] else []) ++
           [SampleEvent.depth ((s.depth : ℚ) / 10)] ++
           (if (divemode = SCUBA ∨ divemode = NITROX) ∧ s.gasmix ≠ s.gasmix_previous then [SampleEvent.gasmixChange s.gasmix] else []))) ∧
    (raw &&& 0x0003 = TEMPERATURE → s.complete = false →
      processWord divemode raw s =
        ({ s with temperature := (raw &&& 0xFFFC) >>> 2, have_temperature := true }, [])) ∧
    (∀ (bytes : List Nat) (i : Nat), divemode = FREEDIVE ∨ divemode = GAUGE →
      SampleEvent.gasmixChange i ∉ sampleLoop divemode bytes s) := by
  refine ⟨?_, ?_, ?_⟩
  · intro hc
    simp only [completeRecord]
    split_ifs <;> simp_all
  · intro hty hc
    simp [processWord, hty, hc, DEPTH, DEPTH2, TIME, TEMPERATURE]
  · intro bytes i hdm
    have hm : ¬ (divemode = SCUBA ∨ divemode = NITROX) := by
      simp only [SCUBA, NITROX, FREEDIVE, GAUGE] at hdm ⊢
      omega
    exact sampleLoop_no_gasmix divemode hm bytes s i

/-- Witness for `C4_complete_record_order`: the emission order on a
concrete completed record with pending temperature in scuba mode, a
Temperature word not completing a record, and a freedive walk emitting no
gas-mix-change event. -/
theorem C4_witness :
    completeRecord 0 c4s =
      ({ c4s with have_temperature := false, complete := false, gasmix_previous := 1 },
       [SampleEvent.time 5000, SampleEvent.temperature 21, SampleEvent.depth 10,
        SampleEvent.gasmixChange 1]) ∧
    processWord 0 843 initState =
      ({ initState with temperature := 210, have_temperature := true }, []) ∧
    SampleEvent.gasmixChange 0 ∉ sampleLoop 2 [144, 1] initState := by
  refine ⟨?_, ?_, ?_⟩
  · have H := (C4_complete_record_order 0 0 c4s).1 rfl
    rw [H]
    norm_num [c4s, U32, SCUBA, NITROX]
  · have H := (C4_complete_record_order 0 843 initState).2.1 (by decide) rfl
    rw [H]
    have e : (843 &&& 65532) >>> 2 = 210 := by decide
    norm_num [e]
  · exact (C4_complete_record_order 2 0 initState).2.2 [144, 1] 0 (Or.inl rfl)

/-- C5: a 16-bit sample word decodes as type = w &&& 3 and payload =
w >>> 2 (the masked form equals the plain shift for 16-bit words); a
Depth/DepthAlt word sets depth to payload bits 0-10, the gas-mix index to
payload bit 11, adds the interval to the accumulator and completes the
record; the interval is 2 seconds in Freedive mode and 5 otherwise. -/
theorem C5_word_decode (divemode raw : Nat) (s : SState) (hraw : raw < 2 ^ 16)
    (hty : raw &&& 0x0003 = DEPTH ∨ raw &&& 0x0003 = DEPTH2) :
    (raw &&& 0xFFFC) >>> 2 = raw >>> 2 ∧
    processWord divemode raw s =
      completeRecord divemode
        { s with depth := raw >>> 2 &&& 0x07FF, gasmix := (raw >>> 2 &&& 0x0800) >>> 11, time := (s.time + intervalOf divemode) % U32, complete := true } ∧
    intervalOf FREEDIVE = 2 ∧ (divemode ≠ FREEDIVE → intervalOf divemode = 5) := by
  have hmask : (raw &&& 0xFFFC) >>> 2 = raw >>> 2 := by
    apply Nat.eq_of_testBit_eq
    intro j
    simp only [Nat.testBit_shiftRight, Nat.testBit_and]
    by_cases hj : j < 14
    · have hb : Nat.testBit 0xFFFC (2 + j) = true := by
        interval_cases j <;> decide
      simp [hb]
    · have h1 : Nat.testBit raw (2 + j) = false :=
        Nat.testBit_lt_two_pow
          (lt_of_lt_of_le hraw (Nat.pow_le_pow_right (by norm_num) (by omega)))
      have h2 : Nat.testBit 0xFFFC (2 + j) = false :=
        Nat.testBit_lt_two_pow
          (lt_of_lt_of_le (show (0xFFFC : Nat) < 2 ^ 16 by norm_num)
            (Nat.pow_le_pow_right (by norm_num) (by omega)))
      simp [h1, h2]
  refine ⟨hmask, ?_, by simp [intervalOf, FREEDIVE],
    fun h => by simp only [FREEDIVE] at h; simp [intervalOf, FREEDIVE, h]⟩
  rcases hty with h | h <;>
    simp [processWord, h, hmask, DEPTH, DEPTH2, TIME, TEMPERATURE]

/-- Witness for `C5_word_decode` on the DepthAlt word 8593
(payload 2148 = gas-mix bit set, depth 100) in gauge mode. -/
theorem C5_witness :
    (8593 &&& 0xFFFC) >>> 2 = 8593 >>> 2 ∧
    processWord 3 8593 initState =
      completeRecord 3 { initState with depth := 100, gasmix := 1, time := 5, complete := true } ∧
    intervalOf 2 = 2 ∧ intervalOf 3 = 5 := by
  have H := C5_word_decode 3 8593 initState (by decide) (Or.inr (by decide))
  refine ⟨H.1, ?_, H.2.2.1, H.2.2.2 (by decide)⟩
  rw [H.2.1]
  have e1 : 8593 >>> 2 &&& 2047 = 100 := by decide
  have e2 : (8593 >>> 2 &&& 2048) >>> 11 = 1 := by decide
  norm_num [e1, e2, initState, intervalOf, FREEDIVE, U32]

theorem ctx_layout_mem {data : List Nat} {ctx : Ctx}
    (h : cressi_goa_init data = .ok ctx) : ctx.layout ∈ layouts := by
  rcases layout_cases h with ⟨-, hl⟩ | ⟨-, hl⟩ | ⟨-, hl⟩ | ⟨-, hl⟩ <;> rw [hl] <;>
    simp [layouts]

theorem layout_wf (l : Layout) (hl : l ∈ layouts) :
    l.headersize ≤ 92 ∧
    (l.divetime ≠ UNDEFINED → l.divetime + 2 ≤ l.headersize) ∧
    (l.maxdepth ≠ UNDEFINED → l.maxdepth + 2 ≤ l.headersize) ∧
    (l.avgdepth ≠ UNDEFINED → l.avgdepth + 2 ≤ l.headersize) ∧
    (l.temperature ≠ UNDEFINED → l.temperature + 2 ≤ l.headersize) ∧
    (l.atmospheric ≠ UNDEFINED → l.atmospheric + 2 ≤ l.headersize) ∧
    (l.gasmix ≠ UNDEFINED → l.gasmix + 4 ≤ l.headersize) := by
  simp only [layouts, List.mem_cons, List.not_mem_nil, or_false] at hl
  rcases hl with h | h | h | h <;> subst h <;> decide

/-- C6: for a successfully constructed context whose layout defines a
gasmix offset, GasMixCount returns exactly the number of leading 2-byte
slots (at the gasmix offset) whose second (oxygen) byte is nonzero,
stopping at the first zero byte or after 2 slots; the count is always at
most 2. -/
theorem C6_gasmix_count (data : List Nat) (ctx : Ctx)
    (h : cressi_goa_init data = .ok ctx) (hg : ctx.layout.gasmix ≠ UNDEFINED) :
    cressi_goa_parser_get_field ctx data .GASMIX_COUNT 0 true =
      some (.ok (some (.uint
        (if data.getD (ctx.headersize + ctx.layout.gasmix + 1) 0 = 0 then 0
         else if data.getD (ctx.headersize + ctx.layout.gasmix + 3) 0 = 0 then 1
         else 2)))) ∧
    (if data.getD (ctx.headersize + ctx.layout.gasmix + 1) 0 = 0 then 0
     else if data.getD (ctx.headersize + ctx.layout.gasmix + 3) 0 = 0 then 1
     else 2) ≤ 2 := by
  have hng := ngasmixesOf_init h
  rw [if_neg hg] at hng
  constructor
  · simp only [cressi_goa_parser_get_field, hng, if_true]
  · split_ifs <;> omega

/-- Witness for `C6_gasmix_count` on the scuba record `wbuf`, whose two
gas slots have oxygen bytes 21 and 32. -/
theorem C6_witness :
    cressi_goa_parser_get_field wctx wbuf .GASMIX_COUNT 0 true =
      some (.ok (some (.uint 2))) := by
  have H := (C6_gasmix_count wbuf wctx (by decide) (by decide)).1
  rw [H]
  decide

/-- C7: every defined field is read as a little-endian 16-bit integer at
header size + field offset with the fixed unit scale: DiveTime raw seconds
unscaled, MaxDepth and AvgDepth raw/10 meters, MinTemperature raw/10 °C,
AtmosphericPressure raw/1000 bar; GasMix[i] (i < 2) returns oxygen =
second byte of slot i divided by 100, helium 0, nitrogen = 1 − oxygen −
helium, usage none. -/
theorem C7_field_scaling (data : List Nat) (ctx : Ctx) (flags : Nat)
    (h : cressi_goa_init data = .ok ctx) :
    (ctx.layout.divetime ≠ UNDEFINED →
      cressi_goa_parser_get_field ctx data .DIVETIME flags true =
        some (.ok (some (.uint (u16le_at data (ctx.headersize + ctx.layout.divetime)))))) ∧
    (ctx.layout.maxdepth ≠ UNDEFINED →
      cressi_goa_parser_get_field ctx data .MAXDEPTH flags true =
        some (.ok (some (.real ((u16le_at data (ctx.headersize + ctx.layout.maxdepth) : ℚ) / 10))))) ∧
    (ctx.layout.avgdepth ≠ UNDEFINED →
      cressi_goa_parser_get_field ctx data .AVGDEPTH flags true =
        some (.ok (some (.real ((u16le_at data (ctx.headersize + ctx.layout.avgdepth) : ℚ) / 10))))) ∧
    (ctx.layout.temperature ≠ UNDEFINED →
      cressi_goa_parser_get_field ctx data .TEMPERATURE_MINIMUM flags true =
        some (.ok (some (.real ((u16le_at data (ctx.headersize + ctx.layout.temperature) : ℚ) / 10))))) ∧
    (ctx.layout.atmospheric ≠ UNDEFINED →
      cressi_goa_parser_get_field ctx data .ATMOSPHERIC flags true =
        some (.ok (some (.real ((u16le_at data (ctx.headersize + ctx.layout.atmospheric) : ℚ) / 1000))))) ∧
    (ctx.layout.gasmix ≠ UNDEFINED → flags < NGASMIXES →
      cressi_goa_parser_get_field ctx data .GASMIX flags true =
        some (.ok (some (.mix
          ((data.getD (ctx.headersize + ctx.layout.gasmix + 2 * flags + 1) 0 : ℚ) / 100) 0
          (1 - (data.getD (ctx.headersize + ctx.layout.gasmix + 2 * flags + 1) 0 : ℚ) / 100 - 0)
          .NONE)))) := by
  have hng := ngasmixesOf_init h
  have hlen := (init_ok_elim h).2.2.2.2.2.2
  have hwf := layout_wf ctx.layout (ctx_layout_mem h)
  refine ⟨?_, ?_, ?_, ?_, ?_, ?_⟩
  · intro hd
    have harr := array_uint16_le_getD data ctx.headersize ctx.layout.divetime
      (by have := hwf.2.1 hd; omega)
    simp only [cressi_goa_parser_get_field, hng, if_true, if_neg hd, harr, u16le_at]
  · intro hd
    have harr := array_uint16_le_getD data ctx.headersize ctx.layout.maxdepth
      (by have := hwf.2.2.1 hd; omega)
    simp only [cressi_goa_parser_get_field, hng, if_true, if_neg hd, harr, u16le_at]
  · intro hd
    have harr := array_uint16_le_getD data ctx.headersize ctx.layout.avgdepth
      (by have := hwf.2.2.2.1 hd; omega)
    simp only [cressi_goa_parser_get_field, hng, if_true, if_neg hd, harr, u16le_at]
  · intro hd
    have harr := array_uint16_le_getD data ctx.headersize ctx.layout.temperature
      (by have := hwf.2.2.2.2.1 hd; omega)
    simp only [cressi_goa_parser_get_field, hng, if_true, if_neg hd, harr, u16le_at]
  · intro hd
    have harr := array_uint16_le_getD data ctx.headersize ctx.layout.atmospheric
      (by have := hwf.2.2.2.2.2.1 hd; omega)
    simp only [cressi_goa_parser_get_field, hng, if_true, if_neg hd, harr, u16le_at]
  · intro hd hf
    simp only [NGASMIXES] at hf
    have hb4 := hwf.2.2.2.2.2.2 hd
    have hidx : (ctx.layout.gasmix + 2 * flags + 1) % U32 =
        ctx.layout.gasmix + 2 * flags + 1 := by
      apply Nat.mod_eq_of_lt
      have := hwf.1
      simp only [U32]
      omega
    have hassoc : ctx.headersize + (ctx.layout.gasmix + 2 * flags + 1) =
        ctx.headersize + ctx.layout.gasmix + 2 * flags + 1 := by omega
    have hb := get?_in_bounds data (ctx.headersize + ctx.layout.gasmix + 2 * flags + 1)
      (by omega)
    simp only [cressi_goa_parser_get_field, hng, if_true, hidx, get_drop_eq, hassoc, hb]

/-- Witness for `C7_field_scaling` on the scuba record `wbuf`: dive time
600 s, max depth 30.5 m, atmospheric 1.013 bar, second gas mix 32%
oxygen. -/
theorem C7_witness :
    cressi_goa_parser_get_field wctx wbuf .DIVETIME 1 true =
      some (.ok (some (.uint 600))) ∧
    cressi_goa_parser_get_field wctx wbuf .MAXDEPTH 1 true =
      some (.ok (some (.real (305 / 10)))) ∧
    cressi_goa_parser_get_field wctx wbuf .ATMOSPHERIC 1 true =
      some (.ok (some (.real (1013 / 1000)))) ∧
    cressi_goa_parser_get_field wctx wbuf .GASMIX 1 true =
      some (.ok (some (.mix (32 / 100) 0 (1 - 32 / 100 - 0) .NONE))) := by
  have H := C7_field_scaling wbuf wctx 1 (by decide)
  refine ⟨?_, ?_, ?_, ?_⟩
  · have h1 := H.1 (by decide)
    have e : u16le_at wbuf (wctx.headersize + wctx.layout.divetime) = 600 := by decide
    rw [h1, e]
  · have h2 := H.2.1 (by decide)
    have e : u16le_at wbuf (wctx.headersize + wctx.layout.maxdepth) = 305 := by decide
    rw [h2, e]
    norm_num
  · have h5 := H.2.2.2.2.1 (by decide)
    have e : u16le_at wbuf (wctx.headersize + wctx.layout.atmospheric) = 1013 := by decide
    rw [h5, e]
    norm_num
  · have h6 := H.2.2.2.2.2 (by decide) (by decide)
    have e : wbuf.getD (wctx.headersize + wctx.layout.gasmix + 2 * 1 + 1) 0 = 32 := by
      decide
    rw [h6, e]
    norm_num

theorem sampleLoop_odd (divemode : Nat) (bytes : List Nat) (s : SState)
    (hodd : bytes.length % 2 = 1) :
    sampleLoop divemode bytes s = sampleLoop divemode bytes.dropLast s := by
  have main : ∀ (n : Nat) (bs : List Nat), bs.length ≤ n → ∀ (t : SState),
      bs.length % 2 = 1 →
      sampleLoop divemode bs t = sampleLoop divemode bs.dropLast t := by
    intro n
    induction n with
    | zero =>
      intro bs hb t ho
      match bs with
      | [] => simp at ho
      | b :: rest => simp at hb
    | succ n ih =>
      intro bs hb t ho
      match bs with
      | [] => simp at ho
      | [b] => rfl
      | [b0, b1] => simp at ho
      | b0 :: b1 :: r :: rs =>
        have hd : (b0 :: b1 :: r :: rs).dropLast = b0 :: b1 :: (r :: rs).dropLast := rfl
        rw [hd]
        simp only [sampleLoop]
        rw [ih (r :: rs) (by simp only [List.length_cons] at hb ⊢; omega) _
          (by simp only [List.length_cons] at ho ⊢; omega)]
  exact main bytes.length bytes le_rfl s hodd

/-- C8: the sample walk starts at header size + Layout.headersize, always
returns success (truncated or malformed trailing data only shortens the
event sequence), consumes 16-bit words two bytes at a time so an odd
trailing byte is never read, and a pending temperature with no subsequent
completing word before the end of the buffer is silently dropped with no
event emitted. -/
theorem C8_sample_walk (ctx : Ctx) (data : List Nat) :
    cressi_goa_parser_samples_foreach ctx data =
      .ok (sampleLoop ctx.divemode
        (data.drop (ctx.headersize + ctx.layout.headersize)) initState) ∧
    (∀ (bytes : List Nat) (s : SState), bytes.length % 2 = 1 →
      sampleLoop ctx.divemode bytes s = sampleLoop ctx.divemode bytes.dropLast s) ∧
    (∀ (b0 b1 : Nat) (s : SState), s.complete = false →
      (b0 + 256 * b1) &&& 0x0003 = TEMPERATURE →
      sampleLoop ctx.divemode [b0, b1] s = []) := by
  refine ⟨samples_foreach_eq_loop ctx data, ?_, ?_⟩
  · intro bytes s hodd
    exact sampleLoop_odd ctx.divemode bytes s hodd
  · intro b0 b1 s hc hty
    simp [sampleLoop, processWord, hty, hc, DEPTH, DEPTH2, TIME, TEMPERATURE]

/-- Witness for `C8_sample_walk`: the walk of `c3buf` starts 126 bytes in
and succeeds; a lone odd byte is never read; a final lone Temperature word
emits nothing. -/
theorem C8_witness :
    cressi_goa_parser_samples_foreach c3ctx c3buf =
      .ok (sampleLoop c3ctx.divemode
        (c3buf.drop (c3ctx.headersize + c3ctx.layout.headersize)) initState) ∧
    sampleLoop c3ctx.divemode [7] initState =
      sampleLoop c3ctx.divemode ([7].dropLast) initState ∧
    sampleLoop c3ctx.divemode [15, 0] initState = [] := by
  have H := C8_sample_walk c3ctx c3buf
  exact ⟨H.1, H.2.1 [7] initState (by decide), H.2.2 15 0 initState rfl (by decide)⟩

/-- C9: decoding is deterministic and idempotent.  In the state-passing
embedding of the parser struct, header decoding run twice from the
resulting state yields the same status and state; a field query and the
sample walk leave the parser state unchanged, so running either twice
yields identical results. -/
theorem C9_idempotent (p : Ctx) (data : List Nat) (ty : FieldType) (flags : Nat)
    (hv : Bool) :
    cressi_goa_init_st (cressi_goa_init_st p data).2 data = cressi_goa_init_st p data ∧
    (cressi_goa_parser_get_field_st p data ty flags hv).2 = p ∧
    cressi_goa_parser_get_field_st (cressi_goa_parser_get_field_st p data ty flags hv).2
      data ty flags hv = cressi_goa_parser_get_field_st p data ty flags hv ∧
    (cressi_goa_parser_samples_foreach_st p data).2 = p ∧
    cressi_goa_parser_samples_foreach_st (cressi_goa_parser_samples_foreach_st p data).2
      data = cressi_goa_parser_samples_foreach_st p data := by
  refine ⟨?_, rfl, rfl, rfl, rfl⟩
  rcases hi : cressi_goa_init data with e | c <;> simp [cressi_goa_init_st, hi]

/-- C10: for a successfully constructed context, a field query with a null
value pointer returns success and writes nothing, for every field type and
index — the field type and layout offset are not validated when the
pointer is null. -/
theorem C10_null_value_pointer (data : List Nat) (ctx : Ctx) (ty : FieldType)
    (flags : Nat) (h : cressi_goa_init data = .ok ctx) :
    cressi_goa_parser_get_field ctx data ty flags false = some (.ok none) := by
  have hng := ngasmixesOf_init h
  simp [cressi_goa_parser_get_field, hng]

/-- Witness for `C10_null_value_pointer`: an unknown field type on the
freedive record and an out-of-range GasMix index on the scuba record both
succeed when the value pointer is null. -/
theorem C10_witness :
    cressi_goa_parser_get_field c2ctx c2buf .UNKNOWN 0 false = some (.ok none) ∧
    cressi_goa_parser_get_field wctx wbuf .GASMIX 5 false = some (.ok none) := by
  exact ⟨C10_null_value_pointer c2buf c2ctx .UNKNOWN 0 (by decide),
         C10_null_value_pointer wbuf wctx .GASMIX 5 (by decide)⟩

end CressiGoa
